import Mathlib

/-!
Shallow embedding of the `pyrevolut` client library (files `pyrevolut.py`,
`pyrevolut/utils.py`, `pyrevolut/exceptions.py`) and proofs about it.

Modelling conventions:
* Decoded JSON values are the inductive `JVal`; a Python `dict` is `JVal.obj`
  with an association list of unique keys (insertion order preserved, first
  match is the binding).
* Python exceptions are the inductive `PyExc`; fallible code returns
  `Except PyExc _`.
* `Decimal` amounts are modelled as exact rationals; the arithmetic the code
  performs (`10 ** e * amount`) is exact for amounts within context precision,
  and `int(...)` on a `Decimal` truncates toward zero (`pyIntTrunc`).
* The HTTP transport (`requests.request`) is an oracle parameter
  `Transport : RawRequest → HttpResponse`; `HttpResponse.jsonBody = none`
  models a body on which `response.json()` raises `JSONDecodeError`.
* Each client operation returns an `OpResult`: its Python return value (or the
  exception it raises), the list of HTTP requests it issued in order, and the
  client object's state when the method finishes.  The source methods contain
  no attribute assignment outside `__init__`, and the state-passing
  translation makes that explicit.
-/

/-- Decoded JSON values, as produced by `response.json()`. -/
inductive JVal where
  | null
  | bool (b : Bool)
  | num (q : ℚ)
  | str (s : String)
  | arr (xs : List JVal)
  | obj (kvs : List (String × JVal))

/-- Python exceptions that the embedded code can raise.  `exc` is the builtin
`Exception`; `apiError` is `RevolutAPIException` (a distinct subclass carrying
a status code and a message value). -/
inductive PyExc where
  | typeError (msg : String)
  | attributeError (msg : String)
  | keyError (key : String)
  | exc (msg : String)
  | apiError (status : ℕ) (message : JVal)

/-- Python `data.get(key, default)`.  The attribute lookup of `.get` succeeds
only when `data` is a dict; on any other JSON value it raises
`AttributeError`. -/
def pyGetD : JVal → String → JVal → Except PyExc JVal
  | .obj kvs, k, dflt => .ok ((kvs.lookup k).getD dflt)
  | .arr _, _, _ => .error (.attributeError "get")
  | .str _, _, _ => .error (.attributeError "get")
  | .num _, _, _ => .error (.attributeError "get")
  | .bool _, _, _ => .error (.attributeError "get")
  | .null, _, _ => .error (.attributeError "get")

/-- Python `data[key]`: `KeyError` on a dict without the key, `TypeError` on a
non-dict. -/
def pySubscript : JVal → String → Except PyExc JVal
  | .obj kvs, k =>
    match kvs.lookup k with
    | some v => .ok v
    | none => .error (.keyError k)
  | .arr _, _ => .error (.typeError "list indices must be integers or slices, not str")
  | .str _, _ => .error (.typeError "string indices must be integers")
  | .num _, _ => .error (.typeError "not subscriptable")
  | .bool _, _ => .error (.typeError "not subscriptable")
  | .null, _ => .error (.typeError "not subscriptable")

/-- Python `v == s` for a decoded JSON value `v` and a string literal `s`:
only an equal string compares equal; every other JSON value is `!=` to a
string. -/
def pyEqStr : JVal → String → Bool
  | .str s, tgt => s == tgt
  | _, _ => false

/-- Python `str(v)` / f-string interpolation of a decoded JSON value.  The
claims only ever interpolate decoded string ids, where `str` is the identity;
the remaining branches render the other constant literals (`None`, `True`,
`False`) and fall back to a plain rendering for numbers and containers. -/
def pyStr : JVal → String
  | .str s => s
  | .null => "None"
  | .bool true => "True"
  | .bool false => "False"
  | .num q => toString q
  | .arr _ => "<list>"
  | .obj _ => "<dict>"

/-! ### `pyrevolut/utils.py` — webhook signature verification

`is_valide_webhook(secret, body, signature)` executes
`hmac.new(secret, body, hashlib.sha256)` followed by
`hmac_hash.compare_digest(signature)`.  Two facts of the Python runtime are
part of the embedding:
* `hmac.new` requires a bytes-like key and raises `TypeError` when `secret`
  is a `str` (the declared parameter type);
* a `hmac.HMAC` instance exposes the attributes listed in
  `hmacInstanceAttrs` — `compare_digest` is a function of the `hmac` module,
  not a method of the object, so the attribute lookup raises
  `AttributeError`.
The HMAC-SHA256 digest itself is kept abstract (`hmacSha256` parameter),
because the function's control flow never reaches a digest comparison. -/

/-- A Python value that is either `bytes` or `str` (the key argument). -/
inductive PyBytesOrStr where
  | bytes (b : List ℕ)
  | str (s : String)

/-- The `hmac.HMAC` object constructed by `hmac.new`. -/
structure HMACObj where
  key : List ℕ
  msg : List ℕ

/-- Attribute names available on a Python `hmac.HMAC` instance: its methods
`update`, `copy`, `digest`, `hexdigest` and data attributes `name`,
`digest_size`, `block_size`.  `compare_digest` lives on the `hmac` module,
not on the instance. -/
def hmacInstanceAttrs : List String :=
  ["update", "copy", "digest", "hexdigest", "name", "digest_size", "block_size"]

/-- Lower-case hex rendering of one byte. -/
def hexByte (n : ℕ) : String :=
  let digit : ℕ → String := fun d =>
    if d < 10 then String.singleton (Char.ofNat (48 + d))
    else String.singleton (Char.ofNat (87 + d))
  digit (n / 16 % 16) ++ digit (n % 16)

/-- Lower-case hex rendering of a byte string (`hexdigest`). -/
def bytesToHex (bs : List ℕ) : String :=
  String.join (bs.map hexByte)

/-- Embedding of `is_valide_webhook` from `pyrevolut/utils.py`, parametric in
the HMAC-SHA256 primitive.  `hmac.new(secret, body, hashlib.sha256)` raises
`TypeError` for a `str` key; otherwise the constructed `HMAC` object has no
`compare_digest` attribute, so the method call raises `AttributeError` before
any comparison happens.  The guarded branch records what the comparison would
return if the attribute existed with `hmac.compare_digest` semantics. -/
def is_valide_webhook (hmacSha256 : List ℕ → List ℕ → List ℕ)
    (secret : PyBytesOrStr) (body : List ℕ) (signature : String) :
    Except PyExc Bool :=
  match secret with
  | .str _ => .error (.typeError "key: expected bytes or bytearray, but got str")
  | .bytes key =>
    let hmac_hash : HMACObj := ⟨key, body⟩
    if hmacInstanceAttrs.contains "compare_digest" then
      .ok (bytesToHex (hmacSha256 hmac_hash.key hmac_hash.msg) == signature)
    else
      .error (.attributeError "HMAC object has no attribute compare_digest")

/-! ### Currency conversion (`Client._to_minor_units`) -/

/-- The slice of an ISO 4217 `Currency` object the code reads: its alphabetic
code and its exponent (number of minor-unit digits). -/
structure Currency where
  code : String
  exponent : ℕ

/-- Python `int(d)` on a `Decimal` value: truncation toward zero, i.e. the
truncating division of the numerator by the denominator. -/
def pyIntTrunc (q : ℚ) : ℤ :=
  q.num.tdiv (q.den : ℤ)

/-- Embedding of `Client._to_minor_units`: `multiplier = 10 ** currency.exponent`
and the result is `int(multiplier * amount)`.  The method reads nothing from
`self`, so the client argument is elided. -/
def to_minor_units (amount : ℚ) (currency : Currency) : ℤ :=
  let multiplier : ℚ := 10 ^ currency.exponent
  pyIntTrunc (multiplier * amount)

/-! ### HTTP layer (`Client._request` and the transport oracle) -/

/-- Module-level constants of `pyrevolut.py`. -/
def REVOLUT_PRODUCTION_URL : String := "https://merchant.revolut.com"

/-- Sandbox base URL constant. -/
def REVOLUT_SANDBOX_URL : String := "https://sandbox-merchant.revolut.com"

/-- Pinned Merchant API version constant. -/
def REVOLUT_API_VERSION : String := "2024-09-01"

/-- One outbound HTTP request exactly as `requests.request` receives it. -/
structure RawRequest where
  method : String
  url : String
  headers : List (String × String)
  json : Option JVal

/-- The transport's answer: an HTTP status code and the result of
`response.json()` — `none` when the body is not valid JSON (the call raises
`requests.JSONDecodeError`). -/
structure HttpResponse where
  status : ℕ
  jsonBody : Option JVal

/-- The HTTP transport oracle standing for `requests.request` plus the remote
server. -/
def Transport : Type := RawRequest → HttpResponse

/-- The client's configuration: base URL and the three header dicts built in
`Client.__init__`. -/
structure Client where
  url : String
  POST_HEADERS : List (String × String)
  DELETE_HEADERS : List (String × String)
  GET_HEADERS : List (String × String)

/-- Result of running one client operation: the Python return value or raised
exception, the HTTP requests issued in order, and the client object when the
method finishes (the source assigns no attribute outside `__init__`). -/
structure OpResult (α : Type) where
  result : Except PyExc α
  trace : List RawRequest
  client : Client

/-- Embedding of `Client.__init__`: selects the base URL by the `sandbox`
flag, builds `POST_HEADERS` (insertion order of the dict literal), builds
`DELETE_HEADERS` from the `Authorization` entry of `POST_HEADERS`, and builds
`GET_HEADERS` as a copy of `POST_HEADERS` with the `Content-Type` key
deleted. -/
def Client.init (secret_key : String) (sandbox : Bool) : Client :=
  let bearer := "Bearer " ++ secret_key
  let post : List (String × String) :=
    [("Content-Type", "application/json"),
     ("Accept", "application/json"),
     ("Revolut-Api-Version", REVOLUT_API_VERSION),
     ("Authorization", bearer)]
  { url := if sandbox then REVOLUT_SANDBOX_URL else REVOLUT_PRODUCTION_URL
    POST_HEADERS := post
    DELETE_HEADERS := [("Authorization", bearer)]
    GET_HEADERS := post.filter (fun kv => kv.1 ≠ "Content-Type") }

/-- Embedding of `Client._request`: concatenates base URL and path, issues the
request, then decodes.  A decode failure raises the builtin
`Exception("Failed to decode JSON response.")`; a decoded body with status
`>= 400` raises `RevolutAPIException(status, data.get("message", "Unknown"))`
(so on a non-dict body the `.get` lookup itself raises `AttributeError`);
otherwise the decoded value is returned as-is. -/
def Client.request (c : Client) (t : Transport) (method path : String)
    (headers : List (String × String)) (json : Option JVal) : OpResult JVal :=
  let req : RawRequest := ⟨method, c.url ++ path, headers, json⟩
  let response := t req
  let result : Except PyExc JVal :=
    match response.jsonBody with
    | none => .error (.exc "Failed to decode JSON response.")
    | some data =>
      if 400 ≤ response.status then
        match pyGetD data "message" (.str "Unknown") with
        | .error e => .error e
        | .ok message => .error (.apiError response.status message)
      else
        .ok data
  ⟨result, [req], c⟩

/-! ### Order resource -/

/-- An `Order` object: the owning client and the `id` taken from the decoded
creation/listing response. -/
structure Order where
  client : Client
  id : JVal

/-- Embedding of `Client.Order.__init__`: stores the client and
`data['id']` — a subscript, so a response dict without the key raises
`KeyError`. -/
def Order.init (client : Client) (data : JVal) : Except PyExc Order :=
  match pySubscript data "id" with
  | .ok v => .ok ⟨client, v⟩
  | .error e => .error e

/-- Embedding of `Order.retrieve`: one GET to `/api/orders/{id}` with the
client's `GET_HEADERS`; returns the decoded body unchanged. -/
def Order.retrieve (o : Order) (t : Transport) : OpResult JVal :=
  o.client.request t "GET" ("/api/orders/" ++ pyStr o.id) o.client.GET_HEADERS none

/-- Embedding of `Order.cancel`: retrieves the order, reads
`data.get('state')`, and only when that equals the literal `'pending'` issues
one POST to `/api/orders/{id}/cancel` (with `POST_HEADERS`) and returns
`True`; otherwise returns `False` without a second request.  Exceptions from
either request propagate. -/
def Order.cancel (o : Order) (t : Transport) : OpResult Bool :=
  let r1 := o.retrieve t
  match r1.result with
  | .error e => ⟨.error e, r1.trace, r1.client⟩
  | .ok data =>
    match pyGetD data "state" .null with
    | .error e => ⟨.error e, r1.trace, r1.client⟩
    | .ok state =>
      if pyEqStr state "pending" then
        let r2 := r1.client.request t "POST" ("/api/orders/" ++ pyStr o.id ++ "/cancel")
          r1.client.POST_HEADERS none
        let result : Except PyExc Bool :=
          match r2.result with
          | .error e => .error e
          | .ok _ => .ok true
        ⟨result, r1.trace ++ r2.trace, r2.client⟩
      else
        ⟨.ok false, r1.trace, r1.client⟩

/-! ### Webhook resource -/

/-- The `Client.Webhook.Events` enum. -/
inductive WebhookEvent where
  | ORDER_COMPLETED
  | ORDER_AUTHORISED
  | ORDER_CANCELED

/-- The `.value` of a `Client.Webhook.Events` member. -/
def WebhookEvent.value : WebhookEvent → String
  | .ORDER_COMPLETED => "ORDER_COMPLETED"
  | .ORDER_AUTHORISED => "ORDER_AUTHORISED"
  | .ORDER_CANCELED => "ORDER_CANCELED"

/-- A `Webhook` object: the four fields read from the decoded response with
`data.get(...)` (so `null` stands for Python `None` when a key is absent) and
the owning client. -/
structure Webhook where
  id : JVal
  url : JVal
  events : JVal
  signing_secret : JVal
  client : Client

/-- Embedding of `Client.Webhook.__init__`: each field is `data.get(key)`,
which defaults to `None` on a dict missing the key and raises
`AttributeError` only when `data` is not a dict. -/
def Webhook.init (client : Client) (data : JVal) : Except PyExc Webhook := do
  let id ← pyGetD data "id" .null
  let url ← pyGetD data "url" .null
  let events ← pyGetD data "events" .null
  let signing_secret ← pyGetD data "signing_secret" .null
  return ⟨id, url, events, signing_secret, client⟩

/-- Embedding of `Webhook.delete`: one DELETE to `/api/1.0/webhooks/{id}`
sent with the client's `POST_HEADERS` (the source passes `POST_HEADERS`,
not `DELETE_HEADERS`).  The Python method returns `None`. -/
def Webhook.delete (w : Webhook) (t : Transport) : OpResult Unit :=
  let r := w.client.request t "DELETE" ("/api/1.0/webhooks/" ++ pyStr w.id)
    w.client.POST_HEADERS none
  ⟨r.result.map (fun _ => ()), r.trace, r.client⟩

/-- Embedding of `Webhook.update`: one PUT to `/api/1.0/webhooks/{id}` with
`POST_HEADERS` and payload `{url, events}` where `events` is the object's
cached value.  The Python method returns `None`. -/
def Webhook.update (w : Webhook) (t : Transport) (url : String) : OpResult Unit :=
  let payload : JVal := .obj [("url", .str url), ("events", w.events)]
  let r := w.client.request t "PUT" ("/api/1.0/webhooks/" ++ pyStr w.id)
    w.client.POST_HEADERS (some payload)
  ⟨r.result.map (fun _ => ()), r.trace, r.client⟩

/-! ### Client-level operations -/

/-- Python iteration over a decoded JSON value, as used by the list
comprehensions: a list yields its elements, a dict yields its keys, a string
yields its one-character substrings; the rest are not iterable
(`TypeError`). -/
def pyIter : JVal → Except PyExc (List JVal)
  | .arr xs => .ok xs
  | .obj kvs => .ok (kvs.map (fun kv => .str kv.1))
  | .str s => .ok (s.toList.map (fun ch => .str (String.singleton ch)))
  | .num _ => .error (.typeError "object is not iterable")
  | .bool _ => .error (.typeError "object is not iterable")
  | .null => .error (.typeError "object is not iterable")

/-- Embedding of `Client.retrieve_webhooks`: one GET to `/api/1.0/webhooks`
with `GET_HEADERS`, then wraps each element of the decoded body into a
`Webhook`. -/
def Client.retrieve_webhooks (c : Client) (t : Transport) : OpResult (List Webhook) :=
  let r := c.request t "GET" "/api/1.0/webhooks" c.GET_HEADERS none
  let result : Except PyExc (List Webhook) :=
    match r.result with
    | .error e => .error e
    | .ok data =>
      match pyIter data with
      | .error e => .error e
      | .ok items => items.mapM (Webhook.init r.client)
  ⟨result, r.trace, r.client⟩

/-- Embedding of `Client.create_webhook`: POSTs `{url, events}` (events as
their string values) to `/api/1.0/webhooks` with `POST_HEADERS` and wraps the
decoded response into a `Webhook`. -/
def Client.create_webhook (c : Client) (t : Transport) (url : String)
    (events : List WebhookEvent) : OpResult Webhook :=
  let payload : JVal := .obj
    [("url", .str url),
     ("events", .arr (events.map (fun e => .str e.value)))]
  let r := c.request t "POST" "/api/1.0/webhooks" c.POST_HEADERS (some payload)
  let result : Except PyExc Webhook :=
    match r.result with
    | .error e => .error e
    | .ok data => Webhook.init r.client data
  ⟨result, r.trace, r.client⟩

/-- Embedding of `Client.create_order`: builds the payload
`{amount: str(_to_minor_units(amount, currency)), currency: currency.code,
redirect_url}`, POSTs it to `/api/orders` with `POST_HEADERS`, and wraps the
decoded response into an `Order` via `Order.__init__`. -/
def Client.create_order (c : Client) (t : Transport) (amount : ℚ)
    (currency : Currency) (redirect_url : String) : OpResult Order :=
  let payload : JVal := .obj
    [("amount", .str (toString (to_minor_units amount currency))),
     ("currency", .str currency.code),
     ("redirect_url", .str redirect_url)]
  let r := c.request t "POST" "/api/orders" c.POST_HEADERS (some payload)
  let result : Except PyExc Order :=
    match r.result with
    | .error e => .error e
    | .ok data => Order.init r.client data
  ⟨result, r.trace, r.client⟩

/-- Embedding of `Client.retrieve_orders`: one GET to `/api/1.0/orders` —
issued with `POST_HEADERS` in the source — then wraps each element of the
decoded body into an `Order`. -/
def Client.retrieve_orders (c : Client) (t : Transport) : OpResult (List Order) :=
  let r := c.request t "GET" "/api/1.0/orders" c.POST_HEADERS none
  let result : Except PyExc (List Order) :=
    match r.result with
    | .error e => .error e
    | .ok data =>
      match pyIter data with
      | .error e => .error e
      | .ok items => items.mapM (Order.init r.client)
  ⟨result, r.trace, r.client⟩

/-! ### Theorems -/

/-- Truncation toward zero, characterised: `pyIntTrunc` is the floor for
nonnegative rationals and the ceiling for negative ones. -/
theorem pyIntTrunc_eq (q : ℚ) : pyIntTrunc q = if 0 ≤ q then ⌊q⌋ else ⌈q⌉ := by
  unfold pyIntTrunc
  by_cases h : 0 ≤ q
  · rw [if_pos h, Rat.floor_def]
    exact Int.tdiv_eq_ediv (Rat.num_nonneg.mpr h) (Int.ofNat_nonneg q.den)
  · rw [if_neg h]
    have hq : 0 ≤ -q := neg_nonneg.mpr (le_of_lt (lt_of_not_le h))
    calc q.num.tdiv (q.den : ℤ)
        = (-((-q).num)).tdiv ((-q).den : ℤ) := by
          rw [Rat.num_neg_eq_neg_num, neg_neg, Rat.neg_den]
      _ = -(((-q).num).tdiv ((-q).den : ℤ)) := Int.neg_tdiv _ _
      _ = -((-q).num / ((-q).den : ℤ)) := by
          rw [Int.tdiv_eq_ediv (Rat.num_nonneg.mpr hq) (Int.ofNat_nonneg (-q).den)]
      _ = -(⌊-q⌋) := by rw [Rat.floor_def]
      _ = ⌈q⌉ := by rw [Int.floor_neg, neg_neg]

/-- Claim C1 [code_bug]: the claim says `is_valide_webhook` returns `true`
exactly for the correct HMAC-SHA256 hex digest and never raises for
mismatched input.  The code instead raises on every call: with a bytes
secret the method call `hmac_hash.compare_digest(signature)` raises
`AttributeError` (an `hmac.HMAC` object has no such method — `compare_digest`
is a module-level function), and with the declared `str` secret type
`hmac.new` already raises `TypeError`.  This holds for every HMAC
implementation, every body and every signature — including the correctly
computed digest of body `b"body"` under secret `b"key"`,
`"515aae133b435d4000956731f68ae5cf5eb85d4f0dc6a546d2bfcd3595ec1ae1"`. -/
theorem is_valide_webhook_always_raises :
    (∀ (hmacSha256 : List ℕ → List ℕ → List ℕ) (key body : List ℕ) (signature : String),
      is_valide_webhook hmacSha256 (.bytes key) body signature =
        .error (.attributeError "HMAC object has no attribute compare_digest")) ∧
    (∀ (hmacSha256 : List ℕ → List ℕ → List ℕ) (s : String) (body : List ℕ) (signature : String),
      is_valide_webhook hmacSha256 (.str s) body signature =
        .error (.typeError "key: expected bytes or bytearray, but got str")) :=
  ⟨fun _ _ _ _ => rfl, fun _ _ _ _ => rfl⟩

/-- Claim C3 [confirmed]: for every currency with exponent `e` and every
decimal amount `a`, `to_minor_units a currency` is the integer part of
`a * 10 ^ e` with the fractional remainder truncated toward zero (floor for
nonnegative products, ceiling for negative ones, never rounding); in
particular amount `10.556` with exponent `2` yields `1055`, not `1056`. -/
theorem to_minor_units_truncates :
    (∀ (a : ℚ) (currency : Currency),
      to_minor_units a currency =
        if 0 ≤ a * 10 ^ currency.exponent
        then ⌊a * 10 ^ currency.exponent⌋
        else ⌈a * 10 ^ currency.exponent⌉) ∧
    to_minor_units (10.556 : ℚ) ⟨"USD", 2⟩ = 1055 := by
  have key : ∀ (a : ℚ) (currency : Currency),
      to_minor_units a currency =
        if 0 ≤ a * 10 ^ currency.exponent
        then ⌊a * 10 ^ currency.exponent⌋
        else ⌈a * 10 ^ currency.exponent⌉ := by
    intro a currency
    unfold to_minor_units
    rw [pyIntTrunc_eq, mul_comm]
  refine ⟨key, ?_⟩
  rw [key]; norm_num

/-- Claim C8 [confirmed]: at construction, `GET_HEADERS` holds exactly
`Accept`, `Revolut-Api-Version` and `Authorization: Bearer <secret>` and no
`Content-Type`; `POST_HEADERS` (also used for PUT) is `GET_HEADERS` plus
`Content-Type: application/json`; `DELETE_HEADERS` holds only
`Authorization`. -/
theorem client_init_header_sets (secret_key : String) (sandbox : Bool) :
    (Client.init secret_key sandbox).GET_HEADERS =
      [("Accept", "application/json"),
       ("Revolut-Api-Version", "2024-09-01"),
       ("Authorization", "Bearer " ++ secret_key)] ∧
    (Client.init secret_key sandbox).GET_HEADERS.lookup "Content-Type" = none ∧
    (Client.init secret_key sandbox).POST_HEADERS =
      ("Content-Type", "application/json") ::
        (Client.init secret_key sandbox).GET_HEADERS ∧
    (Client.init secret_key sandbox).DELETE_HEADERS =
      [("Authorization", "Bearer " ++ secret_key)] :=
  ⟨rfl, rfl, rfl, rfl⟩

/-- Claim C2, amended part: which header set each call site actually passes.
`Order.retrieve` and `Client.retrieve_webhooks` send their GET with
`GET_HEADERS` (no `Content-Type`); but `Client.retrieve_orders` sends its GET
with `POST_HEADERS`, and `Webhook.delete` sends its DELETE with
`POST_HEADERS` — both of which contain `Content-Type: application/json` —
while `DELETE_HEADERS` is never used. -/
theorem per_call_site_headers (secret_key : String) (sandbox : Bool)
    (t : Transport) (oid wid : JVal) :
    ((Order.retrieve ⟨Client.init secret_key sandbox, oid⟩ t).trace.map RawRequest.headers =
      [(Client.init secret_key sandbox).GET_HEADERS]) ∧
    ((Client.retrieve_webhooks (Client.init secret_key sandbox) t).trace.map RawRequest.headers =
      [(Client.init secret_key sandbox).GET_HEADERS]) ∧
    ((Client.init secret_key sandbox).GET_HEADERS.lookup "Content-Type" = none) ∧
    ((Client.retrieve_orders (Client.init secret_key sandbox) t).trace.map RawRequest.headers =
      [(Client.init secret_key sandbox).POST_HEADERS]) ∧
    ((Webhook.delete ⟨wid, .null, .null, .null, Client.init secret_key sandbox⟩ t).trace.map RawRequest.headers =
      [(Client.init secret_key sandbox).POST_HEADERS]) ∧
    ((Client.init secret_key sandbox).POST_HEADERS.lookup "Content-Type" =
      some "application/json") :=
  ⟨rfl, rfl, rfl, rfl, rfl, rfl⟩

/-- A transport fixture answering every request with status 200 and an empty
JSON object body. -/
def tEmptyObj : Transport := fun _ => ⟨200, some (.obj [])⟩

/-- Claim C2, counterexample: with a concrete client, `Webhook.delete` issues
its DELETE carrying the full `POST_HEADERS` — its header dict maps
`Content-Type` to `application/json`, so the request is not sent with
headers containing only `Authorization`, contradicting the claim. -/
theorem per_call_site_headers_cex :
    (Webhook.delete ⟨.str "w1", .null, .null, .null, Client.init "k" false⟩ tEmptyObj).trace =
      [⟨"DELETE", "https://merchant.revolut.com/api/1.0/webhooks/w1",
        [("Content-Type", "application/json"),
         ("Accept", "application/json"),
         ("Revolut-Api-Version", "2024-09-01"),
         ("Authorization", "Bearer k")], none⟩] ∧
    ((Webhook.delete ⟨.str "w1", .null, .null, .null, Client.init "k" false⟩ tEmptyObj).trace.map
      (fun r => r.headers.all (fun kv => kv.1 == "Authorization"))) = [false] :=
  ⟨rfl, rfl⟩

/-- Claim C10 [confirmed]: construction strictness differs between the two
wrappers — `Webhook.__init__` succeeds on every response dict, defaulting
each of `id`, `url`, `events`, `signing_secret` to `None` when the key is
absent, while `Order.__init__` on a dict lacking `'id'` raises `KeyError`
instead of producing an order. -/
theorem wrapper_strictness (c : Client) (kvs : List (String × JVal)) :
    (Webhook.init c (.obj kvs) =
      .ok ⟨(kvs.lookup "id").getD .null, (kvs.lookup "url").getD .null,
           (kvs.lookup "events").getD .null, (kvs.lookup "signing_secret").getD .null, c⟩) ∧
    (kvs.lookup "id" = none → Order.init c (.obj kvs) = .error (.keyError "id")) := by
  constructor
  · rfl
  · intro h
    simp [Order.init, pySubscript, h]

/-- Witness for the wrapper-strictness theorem at a concrete response dict
that lacks the `id` key. -/
theorem wrapper_strictness_witness :
    (Webhook.init (Client.init "k" false) (.obj [("url", .str "https://example.com/hook")]) =
      .ok ⟨.null, .str "https://example.com/hook", .null, .null, Client.init "k" false⟩) ∧
    (Order.init (Client.init "k" false) (.obj [("url", .str "https://example.com/hook")]) =
      .error (.keyError "id")) :=
  ⟨(wrapper_strictness (Client.init "k" false) [("url", .str "https://example.com/hook")]).1,
   (wrapper_strictness (Client.init "k" false) [("url", .str "https://example.com/hook")]).2 rfl⟩

/-- Claim C7 [confirmed]: constructing an `Order` from a response dict whose
`id` field is `"abc"` yields `order.id == "abc"`, and `retrieve()` on that
order issues exactly one GET to `/api/orders/abc` (with `GET_HEADERS`) and
returns the decoded response body unchanged whenever the response decodes
with a status below 400. -/
theorem order_roundtrip (c : Client) (t : Transport) (kvs : List (String × JVal))
    (h : kvs.lookup "id" = some (.str "abc")) :
    (Order.init c (.obj kvs) = .ok ⟨c, .str "abc"⟩) ∧
    ((Order.retrieve ⟨c, .str "abc"⟩ t).trace =
      [⟨"GET", c.url ++ "/api/orders/abc", c.GET_HEADERS, none⟩]) ∧
    (∀ (s : ℕ) (d : JVal),
      t ⟨"GET", c.url ++ "/api/orders/abc", c.GET_HEADERS, none⟩ = ⟨s, some d⟩ →
      s < 400 →
      (Order.retrieve ⟨c, .str "abc"⟩ t).result = .ok d) := by
  refine ⟨?_, rfl, ?_⟩
  · simp [Order.init, pySubscript, h]
  · intro s d ht hs
    simp [Order.retrieve, Client.request, pyStr, ht, Nat.not_le.mpr hs]

/-- A transport fixture answering every request with a decoded order body
whose id is `"abc"` and whose state is `"completed"`. -/
def tOrderAbc : Transport :=
  fun _ => ⟨200, some (.obj [("id", .str "abc"), ("state", .str "completed")])⟩

/-- Witness for the order round-trip theorem at a concrete client, response
dict and transport. -/
theorem order_roundtrip_witness :
    (Order.init (Client.init "k" false) (.obj [("id", .str "abc")]) =
      .ok ⟨Client.init "k" false, .str "abc"⟩) ∧
    ((Order.retrieve ⟨Client.init "k" false, .str "abc"⟩ tOrderAbc).trace =
      [⟨"GET", "https://merchant.revolut.com/api/orders/abc",
        (Client.init "k" false).GET_HEADERS, none⟩]) ∧
    ((Order.retrieve ⟨Client.init "k" false, .str "abc"⟩ tOrderAbc).result =
      .ok (.obj [("id", .str "abc"), ("state", .str "completed")])) :=
  ⟨(order_roundtrip (Client.init "k" false) tOrderAbc [("id", .str "abc")] rfl).1,
   (order_roundtrip (Client.init "k" false) tOrderAbc [("id", .str "abc")] rfl).2.1,
   (order_roundtrip (Client.init "k" false) tOrderAbc [("id", .str "abc")] rfl).2.2
     200 (.obj [("id", .str "abc"), ("state", .str "completed")]) rfl (by decide)⟩

/-- Claim C4, amended part: `_request` issues exactly one request; a JSON
decode failure raises the builtin `Exception` with the static message
(distinct from `RevolutAPIException`); a decoded dict body with status
`>= 400` raises `RevolutAPIException` with the status and the dict's
`message` entry, defaulting to `"Unknown"`; a decoded body with status below
400 is returned as-is; but a decoded non-dict body (e.g. a JSON array) with
status `>= 400` raises `AttributeError` from `data.get`, not an
`APIError`. -/
theorem request_behaviour (c : Client) (t : Transport) (method path : String)
    (headers : List (String × String)) (json : Option JVal) :
    ((Client.request c t method path headers json).trace =
      [⟨method, c.url ++ path, headers, json⟩]) ∧
    ((t ⟨method, c.url ++ path, headers, json⟩).jsonBody = none →
      (Client.request c t method path headers json).result =
        .error (.exc "Failed to decode JSON response.")) ∧
    (∀ (kvs : List (String × JVal)),
      (t ⟨method, c.url ++ path, headers, json⟩).jsonBody = some (.obj kvs) →
      400 ≤ (t ⟨method, c.url ++ path, headers, json⟩).status →
      (Client.request c t method path headers json).result =
        .error (.apiError (t ⟨method, c.url ++ path, headers, json⟩).status
          ((kvs.lookup "message").getD (.str "Unknown")))) ∧
    (∀ (data : JVal),
      (t ⟨method, c.url ++ path, headers, json⟩).jsonBody = some data →
      (t ⟨method, c.url ++ path, headers, json⟩).status < 400 →
      (Client.request c t method path headers json).result = .ok data) ∧
    (∀ (xs : List JVal),
      (t ⟨method, c.url ++ path, headers, json⟩).jsonBody = some (.arr xs) →
      400 ≤ (t ⟨method, c.url ++ path, headers, json⟩).status →
      (Client.request c t method path headers json).result =
        .error (.attributeError "get")) := by
  refine ⟨rfl, ?_, ?_, ?_, ?_⟩
  · intro h
    simp [Client.request, h]
  · intro kvs h h4
    simp [Client.request, h, pyGetD, h4]
  · intro data h hlt
    simp [Client.request, h, Nat.not_le.mpr hlt]
  · intro xs h hge
    simp [Client.request, h, pyGetD, hge]

/-- A transport fixture answering with status 400 and a decoded JSON array
body. -/
def t400arr : Transport := fun _ => ⟨400, some (.arr [])⟩

/-- A transport fixture answering with status 200 and a body that is not
valid JSON. -/
def tBadJson : Transport := fun _ => ⟨200, none⟩

/-- A transport fixture answering with status 400 and the decoded body
`{"message": "Invalid currency"}`. -/
def t400msg : Transport :=
  fun _ => ⟨400, some (.obj [("message", .str "Invalid currency")])⟩

/-- Claim C4, counterexample: on a response whose body decodes to a JSON
array with status 400, `_request` raises `AttributeError` (from
`data.get`), not the `APIError` with message `"Unknown"` that the claim
mandates for a body whose `message` field is absent. -/
theorem request_behaviour_cex :
    (Client.request (Client.init "k" false) t400arr "GET" "/api/1.0/orders"
      (Client.init "k" false).POST_HEADERS none).result =
      .error (.attributeError "get") := rfl

/-- Witness for the request-behaviour theorem: each branch instantiated at a
concrete client, path and transport. -/
theorem request_behaviour_witness :
    ((Client.request (Client.init "k" false) tBadJson "GET" "/api/1.0/orders" [] none).result =
      .error (.exc "Failed to decode JSON response.")) ∧
    ((Client.request (Client.init "k" false) t400msg "GET" "/api/1.0/orders" [] none).result =
      .error (.apiError 400 (.str "Invalid currency"))) ∧
    ((Client.request (Client.init "k" false) tOrderAbc "GET" "/api/1.0/orders" [] none).result =
      .ok (.obj [("id", .str "abc"), ("state", .str "completed")])) ∧
    ((Client.request (Client.init "k" false) t400arr "GET" "/api/1.0/orders" [] none).result =
      .error (.attributeError "get")) :=
  ⟨(request_behaviour (Client.init "k" false) tBadJson "GET" "/api/1.0/orders" [] none).2.1 rfl,
   (request_behaviour (Client.init "k" false) t400msg "GET" "/api/1.0/orders" [] none).2.2.1
     [("message", .str "Invalid currency")] rfl (by decide),
   (request_behaviour (Client.init "k" false) tOrderAbc "GET" "/api/1.0/orders" [] none).2.2.2.1
     (.obj [("id", .str "abc"), ("state", .str "completed")]) rfl (by decide),
   (request_behaviour (Client.init "k" false) t400arr "GET" "/api/1.0/orders" [] none).2.2.2.2
     [] rfl (by decide)⟩

/-- A JSON value other than the string `s` compares unequal to it under
Python equality. -/
theorem pyEqStr_eq_false_of_ne {v : JVal} {s : String} (h : v ≠ .str s) :
    pyEqStr v s = false := by
  cases v <;> simp only [pyEqStr]
  exact beq_eq_false_iff_ne.mpr (fun he => h (he ▸ rfl))

/-- Claim C5 [confirmed]: `Order.cancel` first retrieves the order; when the
retrieved state is the literal `"pending"` it issues exactly one cancel POST
to `/api/orders/{id}/cancel` after the GET (returning `True` when that POST
succeeds), and for any other reported state it returns `False` and issues no
cancel call. -/
theorem cancel_behaviour (c : Client) (t : Transport) (oid : String) (s1 : ℕ)
    (kvs : List (String × JVal))
    (ht : t ⟨"GET", c.url ++ ("/api/orders/" ++ oid), c.GET_HEADERS, none⟩ =
      ⟨s1, some (.obj kvs)⟩)
    (hs1 : s1 < 400) :
    ((kvs.lookup "state").getD .null = .str "pending" →
      ((Order.cancel ⟨c, .str oid⟩ t).trace =
        [⟨"GET", c.url ++ ("/api/orders/" ++ oid), c.GET_HEADERS, none⟩,
         ⟨"POST", c.url ++ ("/api/orders/" ++ oid ++ "/cancel"), c.POST_HEADERS, none⟩]) ∧
      (∀ (s2 : ℕ) (d2 : JVal),
        t ⟨"POST", c.url ++ ("/api/orders/" ++ oid ++ "/cancel"), c.POST_HEADERS, none⟩ =
          ⟨s2, some d2⟩ →
        s2 < 400 →
        (Order.cancel ⟨c, .str oid⟩ t).result = .ok true)) ∧
    ((kvs.lookup "state").getD .null ≠ .str "pending" →
      (Order.cancel ⟨c, .str oid⟩ t).result = .ok false ∧
      (Order.cancel ⟨c, .str oid⟩ t).trace =
        [⟨"GET", c.url ++ ("/api/orders/" ++ oid), c.GET_HEADERS, none⟩]) := by
  constructor
  · intro hst
    have htrue : pyEqStr ((kvs.lookup "state").getD .null) "pending" = true := by
      rw [hst]; rfl
    constructor
    · simp [Order.cancel, Order.retrieve, Client.request, pyStr, ht,
        Nat.not_le.mpr hs1, pyGetD, htrue]
    · intro s2 d2 ht2 hs2
      simp [Order.cancel, Order.retrieve, Client.request, pyStr, ht, ht2,
        Nat.not_le.mpr hs1, Nat.not_le.mpr hs2, pyGetD, htrue]
  · intro hne
    have hfalse := pyEqStr_eq_false_of_ne hne
    constructor <;>
      simp [Order.cancel, Order.retrieve, Client.request, pyStr, ht,
        Nat.not_le.mpr hs1, pyGetD, hfalse]

/-- A transport fixture whose GET responses report an order in state
`"pending"` and whose other responses are empty JSON objects with status
200. -/
def tPendingOrder : Transport := fun req =>
  if req.method == "GET" then ⟨200, some (.obj [("state", .str "pending")])⟩
  else ⟨200, some (.obj [])⟩

/-- Witness for the cancel-behaviour theorem: against a transport reporting
state `"pending"`, `cancel` issues the GET then exactly one cancel POST and
returns `True`; against one reporting state `"completed"`, it returns
`False` after the GET alone. -/
theorem cancel_behaviour_witness :
    ((Order.cancel ⟨Client.init "k" false, .str "o1"⟩ tPendingOrder).result = .ok true) ∧
    ((Order.cancel ⟨Client.init "k" false, .str "o1"⟩ tPendingOrder).trace =
      [⟨"GET", "https://merchant.revolut.com/api/orders/o1",
        (Client.init "k" false).GET_HEADERS, none⟩,
       ⟨"POST", "https://merchant.revolut.com/api/orders/o1/cancel",
        (Client.init "k" false).POST_HEADERS, none⟩]) ∧
    ((Order.cancel ⟨Client.init "k" false, .str "o1"⟩ tOrderAbc).result = .ok false) ∧
    ((Order.cancel ⟨Client.init "k" false, .str "o1"⟩ tOrderAbc).trace =
      [⟨"GET", "https://merchant.revolut.com/api/orders/o1",
        (Client.init "k" false).GET_HEADERS, none⟩]) := by
  have hp := cancel_behaviour (Client.init "k" false) tPendingOrder "o1" 200
    [("state", .str "pending")] rfl (by decide)
  have hc := cancel_behaviour (Client.init "k" false) tOrderAbc "o1" 200
    [("id", .str "abc"), ("state", .str "completed")] rfl (by decide)
  have hne : (([("id", JVal.str "abc"), ("state", JVal.str "completed")].lookup "state").getD .null ≠
      JVal.str "pending") := by
    intro h
    have h' : JVal.str "completed" = JVal.str "pending" := h
    injection h' with h2
    exact absurd h2 (by decide)
  exact ⟨(hp.1 rfl).2 200 (.obj []) rfl (by decide), (hp.1 rfl).1,
    (hc.2 hne).1, (hc.2 hne).2⟩

/-- Claim C6 [confirmed]: `create_order` POSTs exactly the payload
`{amount: str(_to_minor_units(amount, currency)), currency: currency.code,
redirect_url}` to `/api/orders` with `POST_HEADERS`, and when the response
decodes to a dict with an `id` field and a status below 400, it returns an
`Order` whose `id` is that field. -/
theorem create_order_behaviour (c : Client) (t : Transport) (amount : ℚ)
    (currency : Currency) (redirect_url : String) (s : ℕ)
    (kvs : List (String × JVal)) (idv : JVal)
    (ht : t ⟨"POST", c.url ++ "/api/orders", c.POST_HEADERS,
      some (.obj [("amount", .str (toString (to_minor_units amount currency))),
                  ("currency", .str currency.code),
                  ("redirect_url", .str redirect_url)])⟩ = ⟨s, some (.obj kvs)⟩)
    (hs : s < 400) (hid : kvs.lookup "id" = some idv) :
    ((Client.create_order c t amount currency redirect_url).trace =
      [⟨"POST", c.url ++ "/api/orders", c.POST_HEADERS,
        some (.obj [("amount", .str (toString (to_minor_units amount currency))),
                    ("currency", .str currency.code),
                    ("redirect_url", .str redirect_url)])⟩]) ∧
    ((Client.create_order c t amount currency redirect_url).result =
      .ok ⟨c, idv⟩) := by
  refine ⟨rfl, ?_⟩
  simp [Client.create_order, Client.request, Order.init, pySubscript, ht,
    Nat.not_le.mpr hs, hid]

/-- A transport fixture answering every request with the decoded body
`{"id": "ord1"}` at status 200. -/
def tCreatedOrder : Transport := fun _ => ⟨200, some (.obj [("id", .str "ord1")])⟩

/-- Witness for the create-order theorem: amount 50 EUR (exponent 2) is
serialised as the minor-unit string `"5000"`, the POST carries exactly the
claimed payload, and the returned order's id is the response's `id`. -/
theorem create_order_behaviour_witness :
    ((Client.create_order (Client.init "k" false) tCreatedOrder 50 ⟨"EUR", 2⟩
      "https://google.com").trace =
      [⟨"POST", "https://merchant.revolut.com/api/orders",
        (Client.init "k" false).POST_HEADERS,
        some (.obj [("amount", .str "5000"),
                    ("currency", .str "EUR"),
                    ("redirect_url", .str "https://google.com")])⟩]) ∧
    ((Client.create_order (Client.init "k" false) tCreatedOrder 50 ⟨"EUR", 2⟩
      "https://google.com").result =
      .ok ⟨Client.init "k" false, .str "ord1"⟩) := by
  have h5000 : toString (to_minor_units 50 ⟨"EUR", 2⟩) = "5000" := by
    have h : to_minor_units 50 ⟨"EUR", 2⟩ = 5000 := by
      unfold to_minor_units
      rw [pyIntTrunc_eq]
      norm_num
    rw [h]
    rfl
  have main := create_order_behaviour (Client.init "k" false) tCreatedOrder 50
    ⟨"EUR", 2⟩ "https://google.com" 200 [("id", .str "ord1")] (.str "ord1")
    rfl (by decide) rfl
  rw [h5000] at main
  exact main

/-- Claim C9 [confirmed]: no operation mutates the client configuration —
after `create_order`, `retrieve_orders`, `create_webhook`,
`retrieve_webhooks`, `Order.retrieve`, `Order.cancel`, `Webhook.update` or
`Webhook.delete`, the client record (base URL and all three header dicts) is
exactly the one from before the call, for every transport behaviour. -/
theorem client_config_immutable (c : Client) (t : Transport) (amount : ℚ)
    (currency : Currency) (redirect_url newUrl : String)
    (events : List WebhookEvent) (o : Order) (w : Webhook) :
    ((Client.create_order c t amount currency redirect_url).client = c) ∧
    ((Client.retrieve_orders c t).client = c) ∧
    ((Client.create_webhook c t newUrl events).client = c) ∧
    ((Client.retrieve_webhooks c t).client = c) ∧
    ((Order.retrieve o t).client = o.client) ∧
    ((Order.cancel o t).client = o.client) ∧
    ((Webhook.update w t newUrl).client = w.client) ∧
    ((Webhook.delete w t).client = w.client) := by
  refine ⟨rfl, rfl, rfl, rfl, rfl, ?_, rfl, rfl⟩
  unfold Order.cancel
  dsimp only
  split
  · rfl
  · split
    · rfl
    · split
      · rfl
      · rfl
